import Mathlib

/-!
Verification of the Sierra-DB-Query MCP server core: a shallow embedding of
the request-dispatch pipeline (`src/index.ts`, embedded in
`src/src/tools/users.ts` lines 1302-1701 of this snapshot), the connection
resolver, the boot-time tools allow-list filter, the HTTP transport routing
(`runHttp`), and the shared `DatabaseConnection` singleton
(`src/docs/07-API-ENDPOINTS.md`, `connection.ts` excerpt).

Modelling conventions:
  - JavaScript values carried in requests and configuration files are modelled
    by the inductive `Js`; JS truthiness of strings and of values is modelled
    explicitly (`optTruthy`, `jsTruthy`).
  - Promise rejection / `throw` is modelled by `Except JsError`.
  - A `SierraTool`'s zod `inputSchema` is modelled by its acceptance
    predicate `Js → Bool`; `execute` is the handler function.
  - The single-quote character (ASCII 39) appearing in source message strings
    is produced by `sq` below.
-/

namespace SierraDB

/-- JS truthiness of an optional string: `undefined` and the empty string are
falsy, every other string is truthy. -/
def optTruthy : Option String → Bool
  | none => false
  | some s => !(s == "")

/-- The single-quote character used inside source error messages. -/
def sq : String := String.mk [Char.ofNat 39]

/-- A JavaScript/JSON value (as produced by `JSON.parse` or carried in a
request body). -/
inductive Js where
  | null
  | bool (b : Bool)
  | num (n : Int)
  | str (s : String)
  | arr (elems : List Js)
  | obj (fields : List (String × Js))

/-- JS truthiness of a `Js` value. -/
def jsTruthy : Js → Bool
  | .null => false
  | .bool b => b
  | .num n => !(n == 0)
  | .str s => !(s == "")
  | .arr _ => true
  | .obj _ => true

/-- JS member access `v[key]`: defined on objects (last duplicate key wins,
as after `JSON.parse`), `undefined` (`none`) otherwise. -/
def jsGet (v : Js) (key : String) : Option Js :=
  match v with
  | .obj fields => fields.foldl (fun acc kv => if kv.1 == key then some kv.2 else acc) none
  | _ => none

/-- `typeof x === 'string'` for one element. -/
def jsIsString : Js → Bool
  | .str _ => true
  | _ => false

/-- `Array.isArray(v) && v.every(t => typeof t === 'string')` on a possibly
`undefined` value. -/
def isStringArray : Option Js → Bool
  | some (.arr elems) => elems.all jsIsString
  | _ => false

/-- The string elements of a value known to be a string array. -/
def stringArrayValues : Option Js → List String
  | some (.arr elems) => elems.filterMap (fun e => match e with | .str s => some s | _ => none)
  | _ => []

/-- Member access returning a string field, `undefined` otherwise (used for
destructuring `connectionString` out of tool arguments). -/
def jsGetString (v : Js) (key : String) : Option String :=
  match jsGet v key with
  | some (.str s) => some s
  | _ => none

/-- One content part of a tool output (`types/tool.ts`): always textual. -/
structure ContentPart where
  type : String
  text : String
deriving DecidableEq, Repr

/-- `ToolOutput` (`types/tool.ts`): content parts plus the optional
business-level `isError` flag. -/
structure ToolOutput where
  content : List ContentPart
  isError : Option Bool := none
deriving DecidableEq, Repr

/-- MCP protocol error codes (`@modelcontextprotocol/sdk` `ErrorCode`). -/
inductive ErrorCode where
  | parseFailure
  | invalidRequest
  | methodNotFound
  | invalidParams
  | internalError
deriving DecidableEq, Repr

/-- `McpError`: a protocol-level error value with a stable code. -/
structure McpError where
  code : ErrorCode
  message : String
deriving DecidableEq, Repr

/-- A thrown JavaScript value as seen by a `catch` block: an `McpError`
(which is also an `Error`), a plain `Error`, or a non-`Error` value. -/
inductive JsError where
  | mcp (e : McpError)
  | error (message : String)
  | thrownValue (stringRepr : String)
deriving DecidableEq, Repr

/-- The message the dispatcher's catch block extracts:
`error instanceof Error ? error.message : String(error)`, with the
`McpError` branch also yielding `error.message`. -/
def JsError.displayMessage : JsError → String
  | .mcp e => e.message
  | .error m => m
  | .thrownValue r => r

/-- A registered operation handler (`SierraTool` in `types/tool.ts`).
The zod `inputSchema` is modelled by its acceptance predicate; `execute`
receives the arguments value and the connection-string resolver and may
throw (modelled by `Except JsError`). -/
structure SierraTool where
  name : String
  description : String
  inputSchema : Js → Bool
  execute : Js → (Option String → Except McpError String) → Except JsError ToolOutput

/-- Process-level configuration consumed by `getConnectionString`
(`index.ts`): the `--connection-string` CLI option and the
`POSTGRES_CONNECTION_STRING` environment variable. -/
structure ProcessConfig where
  cliConnectionString : Option String
  envConnectionString : Option String

/-- The message of the error thrown when no connection string can be
resolved (`index.ts` `getConnectionString`). -/
def noConnectionStringMessage : String :=
  "No connection string provided. Provide one in the tool arguments, via the --connection-string CLI option, or set the POSTGRES_CONNECTION_STRING environment variable."

/-- `getConnectionString` (`index.ts` lines 1342-1358): explicit per-call
argument, then the CLI option, then the environment variable, else an
`McpError` with `InvalidParams`. Empty strings are falsy and skipped,
mirroring the JS `if (x)` tests. -/
def getConnectionString (cfg : ProcessConfig) (connectionStringArg : Option String) :
    Except McpError String :=
  if optTruthy connectionStringArg then .ok (connectionStringArg.getD "")
  else if optTruthy cfg.cliConnectionString then .ok (cfg.cliConnectionString.getD "")
  else if optTruthy cfg.envConnectionString then .ok (cfg.envConnectionString.getD "")
  else .error ⟨.invalidParams, noConnectionStringMessage⟩

/-- Lookup in a JS record built by `reduce((acc, t) => acc[t.name] = t)`:
the last tool with a matching name wins. -/
def recordLookup (tools : List SierraTool) (name : String) : Option SierraTool :=
  tools.foldl (fun acc t => if t.name == name then some t else acc) none

/-- The dispatch-relevant state of `SierraDBServer`: the full registered
tool list and the allow-list-filtered enabled list (whose derived record is
`recordLookup enabledTools`). -/
structure ServerState where
  availableToolsList : List SierraTool
  enabledTools : List SierraTool

/-- The not-found message selected by the CallTool handler
(`index.ts` lines 1464-1469): the text differs according to whether the
name is registered in the full list (`wasAvailable`). -/
def notEnabledMessage (available : List SierraTool) (toolName : String) : String :=
  if available.any (fun t => t.name == toolName) then
    "Tool \"" ++ toolName ++ "\" is available but not enabled by current configuration."
  else
    "Tool " ++ sq ++ toolName ++ sq ++ " is not enabled or does not exist."

/-- The try-block of the CallTool request handler (`index.ts` lines
1460-1473): look the name up in the enabled-tools record; throw
`McpError(MethodNotFound, ...)` when absent; otherwise invoke the tool's
`execute` on the raw `request.params.arguments` with the connection
resolver. No schema validation is performed on this path. -/
def callToolTry (cfg : ProcessConfig) (s : ServerState) (toolName : String) (arguments : Js) :
    Except JsError ToolOutput :=
  match recordLookup s.enabledTools toolName with
  | none => .error (.mcp ⟨.methodNotFound, notEnabledMessage s.availableToolsList toolName⟩)
  | some tool => tool.execute arguments (getConnectionString cfg)

/-- The catch-block of the CallTool request handler (`index.ts` lines
1474-1484): any thrown value becomes a `ToolOutput` with `isError = true`
and a single text part prefixed with `Error: `. -/
def catchToOutput (e : JsError) : ToolOutput :=
  { content := [⟨"text", "Error: " ++ e.displayMessage⟩], isError := some true }

/-- The complete registered CallTool request handler (the function passed to
`setRequestHandler(CallToolRequestSchema, ...)`): the try body with every
thrown value converted by the catch block, hence it always returns. -/
def registeredCallToolHandler (cfg : ProcessConfig) (s : ServerState) (toolName : String)
    (arguments : Js) : Except JsError ToolOutput :=
  match callToolTry cfg s toolName arguments with
  | .ok result => .ok result
  | .error e => .ok (catchToOutput e)

/-- The response envelope the SDK builds from the registered handler: a
successful envelope carrying the returned output, or, had the handler
function itself thrown, a protocol-level error in the envelope's error
slot. -/
inductive CallResponse where
  | success (output : ToolOutput)
  | protocolError (code : ErrorCode) (message : String)
deriving DecidableEq, Repr

/-- The envelope-level response to a CallTool request: the SDK converts a
handler return value into a success envelope and a thrown value into a
protocol error. -/
def callToolEnvelopeResponse (cfg : ProcessConfig) (s : ServerState) (toolName : String)
    (arguments : Js) : CallResponse :=
  match registeredCallToolHandler cfg s toolName arguments with
  | .ok o => .success o
  | .error (.mcp e) => .protocolError e.code e.message
  | .error e => .protocolError .internalError e.displayMessage

/-- The possible sources of the tools configuration document
(`loadAndFilterTools`, `index.ts` lines 1404-1439): no `--tools-config`
path given, `fs.readFileSync` or `JSON.parse` threw, or a parsed value. -/
inductive ToolsConfigSource where
  | noPath
  | readOrParseError (message : String)
  | parsed (config : Js)

/-- `loadAndFilterTools` (`index.ts` lines 1404-1439), restricted to
computing the enabled tool list: when a config value parses and
`config && Array.isArray(config.enabledTools) && config.enabledTools.every(typeof string)`
holds, the enabled list is the registered list filtered by membership of
the tool name in the configured set; every other outcome (no path, read
error, parse error, wrong shape) leaves every registered tool enabled. -/
def loadAndFilterTools (available : List SierraTool) (src : ToolsConfigSource) :
    List SierraTool :=
  match src with
  | .noPath => available
  | .readOrParseError _ => available
  | .parsed config =>
      if jsTruthy config && isStringArray (jsGet config "enabledTools") then
        let enabledToolNames := stringArrayValues (jsGet config "enabledTools")
        available.filter (fun tool => enabledToolNames.contains tool.name)
      else available

/-- The server state built at boot: the full list plus the filtered list. -/
def mkServerState (available : List SierraTool) (src : ToolsConfigSource) : ServerState :=
  { availableToolsList := available, enabledTools := loadAndFilterTools available src }

/-! ## HTTP transport (`runHttp`, `index.ts` lines 1504-1662)

The `transports` record maps a session id to its
`StreamableHTTPServerTransport`.  A transport is entered into the record by
`onsessioninitialized` (after its handshake completed, so with `active =
true`) and removed by `onclose`. -/

/-- One entry of the `transports` record: the session id and whether the
session's handshake has completed (the spec's `Active` state). -/
structure HttpTransport where
  sessionId : String
  active : Bool
deriving DecidableEq, Repr

/-- JS record lookup `transports[sid]` (last write wins). -/
def transportLookup (transports : List HttpTransport) (sid : String) : Option HttpTransport :=
  transports.foldl (fun acc t => if t.sessionId == sid then some t else acc) none

/-- `delete transports[sid]` (the body of `transport.onclose`,
`index.ts` lines 1548-1554). -/
def removeTransport (transports : List HttpTransport) (sid : String) : List HttpTransport :=
  transports.filter (fun t => !(t.sessionId == sid))

/-- The dispatch-relevant content of a POST body: whether
`isInitializeRequest(req.body)` holds. -/
structure HttpBody where
  isInitReq : Bool
deriving DecidableEq, Repr

/-- The reply delivered on an HTTP exchange's response channel. -/
inductive HttpReply where
  | handshakeAck (newSessionId : String)
  | handledBySession (sid : String)
  | sessionProtocolError (message : String)
  | badRequestRpc (code : Int) (message : String)
  | badRequestText (message : String)
  | terminatedOk (sid : String)
deriving DecidableEq, Repr

/-- Modelled from the spec: the behavior of a session's
`StreamableHTTPServerTransport.handleRequest` on a POST body, which is SDK
code not part of this repository.  Per spec section 4.3, "once `Active`, a
second Handshake on the same session is a protocol error", so a handshake
body reaching an `active` transport is rejected; every other body is
handled by the session's transport. -/
def transportHandlePost (t : HttpTransport) (body : HttpBody) : HttpReply :=
  if body.isInitReq && t.active then
    .sessionProtocolError "Handshake rejected: session already active"
  else
    .handledBySession t.sessionId

/-- The `app.post('/mcp')` routing (`index.ts` lines 1528-1588).
`freshId` stands for the `randomUUID()` the new transport would generate.
The scrutinee mirrors `if (sessionId && transports[sessionId])`; the second
branch mirrors `else if (!sessionId && isInitializeRequest(req.body))`, in
which the new transport is connected, handles the handshake, and is entered
into the record by `onsessioninitialized` with its handshake completed; the
final branch is the 400 rejection that never reaches dispatch. -/
def mcpPost (freshId : String) (transports : List HttpTransport)
    (sessionIdHeader : Option String) (body : HttpBody) : HttpReply × List HttpTransport :=
  match (if optTruthy sessionIdHeader
         then transportLookup transports (sessionIdHeader.getD "")
         else none) with
  | some t => (transportHandlePost t body, transports)
  | none =>
      if !optTruthy sessionIdHeader && body.isInitReq then
        (.handshakeAck freshId, transports ++ [⟨freshId, true⟩])
      else
        (.badRequestRpc (-32000) "Bad Request: No valid session ID provided", transports)

/-- The `app.delete('/mcp')` routing (`index.ts` lines 1604-1621): a missing
header or an id with no live transport is answered `400 Invalid or missing
session ID` and the record is untouched.  Otherwise the transport handles
the DELETE; that the SDK transport thereupon terminates the session and
fires `onclose` is modelled from the spec ("an explicit termination
exchange with a valid token ends the session"); the `onclose` body removing
the entry from the record is source code (`index.ts` lines 1548-1554). -/
def mcpDelete (transports : List HttpTransport) (sessionIdHeader : Option String) :
    HttpReply × List HttpTransport :=
  if !optTruthy sessionIdHeader
      || (transportLookup transports (sessionIdHeader.getD "")).isNone then
    (.badRequestText "Invalid or missing session ID", transports)
  else
    (.terminatedOk (sessionIdHeader.getD ""),
      removeTransport transports (sessionIdHeader.getD ""))

/-! ## The `DatabaseConnection` singleton (`connection.ts`, reproduced in
`src/docs/07-API-ENDPOINTS.md` lines 742-924)

Every tool handler calls `DatabaseConnection.getInstance()`: there is one
process-wide instance whose fields persist across handler invocations. -/

/-- The mutable fields of the `DatabaseConnection` singleton that the
`connect`/`query` paths read and write. -/
structure DbConnState where
  hasPool : Bool
  hasClient : Bool
  connectionString : String
deriving DecidableEq, Repr

/-- The singleton's state when first constructed. -/
def dbInitialState : DbConnState := ⟨false, false, ""⟩

/-- `DatabaseConnection.connect` as a transition on the singleton state.
`poolConnectOk` stands for the outcome of the external `pool.connect()`.
Paths, in source order: no connection string resolvable (argument falsy and
environment falsy) throws; a pool already open for the same string returns
early, leaving the retained state untouched; otherwise the fields are
overwritten with the new connection; a failing `pool.connect()` releases
client and pool but leaves the newly assigned `connectionString` in place,
and rethrows wrapped.  The returned `Option String` is the thrown message,
`none` on success. -/
def dbConnect (st : DbConnState) (connectionStringArg : Option String)
    (env : Option String) (poolConnectOk : Bool) : DbConnState × Option String :=
  let connString := if optTruthy connectionStringArg
                    then connectionStringArg.getD "" else env.getD ""
  if connString == "" then
    (st, some ("Failed to connect to database: No connection string provided and POSTGRES_CONNECTION_STRING environment variable is not set"))
  else if st.hasPool && connString == st.connectionString then
    (st, none)
  else if poolConnectOk then
    (⟨true, true, connString⟩, none)
  else
    (⟨false, false, connString⟩, some "Failed to connect to database: connection attempt failed")

/-- `DatabaseConnection.query`: throws `Not connected to database` without a
client and pool; otherwise the query is issued over the singleton's current
connection, modelled by returning the connection string it runs against. -/
def dbQuery (st : DbConnState) : Except String String :=
  if !(st.hasClient && st.hasPool) then .error "Not connected to database"
  else .ok st.connectionString

/-! ## Fixture handlers

Concrete instances of the `SierraTool` contract used to evaluate the
dispatch pipeline on concrete inputs.  `analyzeDatabaseTool` is the shim of
the real `sierra_analyze_database` tool; the others are test fixtures. -/

/-- Declared parameter schema of the probe fixture: requires an `operation`
field (as every management tool's schema declares `operation` required). -/
def probeSchema (v : Js) : Bool := (jsGet v "operation").isSome

/-- A fixture handler whose output records whether the arguments value it
received satisfies its own declared schema, making the value the dispatcher
hands to `execute` observable. -/
def probeTool : SierraTool :=
  { name := "probe_tool"
    description := "probe fixture"
    inputSchema := probeSchema
    execute := fun args _ =>
      .ok { content := [⟨"text",
              if probeSchema args then "handler-received-valid-args"
              else "handler-received-unvalidated-args"⟩],
            isError := none } }

/-- A fixture handler standing for a registered tool excluded by the
allow-list in the two-run comparison. -/
def fixtureQueryTool : SierraTool :=
  { name := "sierra_execute_query"
    description := "fixture"
    inputSchema := fun _ => true
    execute := fun _ _ => .ok { content := [⟨"text", "ok"⟩], isError := none } }

/-- A fixture handler that raises a downstream database error. -/
def failingFixtureTool : SierraTool :=
  { name := "failing_tool"
    description := "fixture"
    inputSchema := fun _ => true
    execute := fun _ _ => .error (.error "relation does not exist") }

/-- The `sierra_analyze_database` tool shim (`analyze.ts` lines 167-199):
`execute` destructures `connectionString` from the raw arguments and calls
the connection resolver before entering its try block, so a resolver
failure is thrown out of `execute` into the dispatcher.  The analysis body
(all database access) is an external collaborator abstracted as `body`. -/
def analyzeDatabaseTool (body : String → Except JsError ToolOutput) : SierraTool :=
  { name := "sierra_analyze_database"
    description := "Analyze PostgreSQL database configuration and performance."
    inputSchema := fun v =>
      match jsGet v "analysisType" with
      | some (.str s) => ["configuration", "performance", "security"].contains s
      | _ => false
    execute := fun args gcs =>
      match gcs (jsGetString args "connectionString") with
      | .error e => .error (.mcp e)
      | .ok connString => body connString }

/-! ## Shared lemmas -/

/-- A CallTool request whose name is not in the enabled record is answered
with a successful envelope carrying the catch-converted not-found output. -/
lemma envelopeResponse_of_not_enabled (cfg : ProcessConfig) (s : ServerState)
    (toolName : String) (args : Js)
    (h : recordLookup s.enabledTools toolName = none) :
    callToolEnvelopeResponse cfg s toolName args
      = .success ⟨[⟨"text", "Error: " ++ notEnabledMessage s.availableToolsList toolName⟩],
          some true⟩ := by
  simp [callToolEnvelopeResponse, registeredCallToolHandler, callToolTry, h,
    catchToOutput, JsError.displayMessage]

/-- The registered CallTool handler never throws: its catch block converts
every raised value into a returned output. -/
lemma registeredCallToolHandler_total (cfg : ProcessConfig) (s : ServerState)
    (toolName : String) (args : Js) :
    ∃ o, registeredCallToolHandler cfg s toolName args = .ok o := by
  unfold registeredCallToolHandler
  cases callToolTry cfg s toolName args <;> exact ⟨_, rfl⟩

/-! ## Claim theorems -/

/-- C1: the claim states that for every inbound Call naming an enabled
operation, the arguments payload is validated against the operation's
declared parameter schema strictly before the handler executes, so no
handler ever receives an unvalidated value.  Evaluating the dispatch
pipeline at the failing input shows the contrary: the empty object fails
the enabled tool's declared schema, yet dispatch invokes the handler on
exactly that raw payload (no validation step exists between lookup and
`execute`). -/
theorem c1_handler_receives_unvalidated_arguments :
    probeSchema (Js.obj []) = false
    ∧ registeredCallToolHandler ⟨none, none⟩ ⟨[probeTool], [probeTool]⟩
        "probe_tool" (Js.obj [])
      = .ok { content := [⟨"text", "handler-received-unvalidated-args"⟩],
              isError := none } :=
  ⟨rfl, rfl⟩

/-- C2 (counterexample): a Call naming an operation absent from the
effective registry is answered with a successful envelope carrying an
Output with `isError = true` — not with a protocol-level error in the
envelope's error slot as the claim states (the thrown
`McpError(MethodNotFound)` is swallowed by the dispatcher's own catch). -/
theorem c2_unknown_operation_counterexample :
    callToolEnvelopeResponse ⟨none, none⟩ ⟨[], []⟩ "nope" (Js.obj [])
      = .success ⟨[⟨"text", "Error: Tool " ++ sq ++ "nope" ++ sq ++ " is not enabled or does not exist."⟩],
          some true⟩ := by
  decide

/-- C2 (amended): for every Call envelope whose operation name is not in
the effective registry, the handler is not invoked and the response is a
successful envelope carrying an Output with `isError = true` whose single
text part is `Error: ` followed by the not-found message; no protocol-level
error reaches the envelope's error slot.  This holds whether or not the
name exists in the full, unfiltered registry (the message text is the only
difference between those cases). -/
theorem c2_unknown_operation_success_isError (cfg : ProcessConfig) (s : ServerState)
    (toolName : String) (args : Js)
    (h : recordLookup s.enabledTools toolName = none) :
    callToolEnvelopeResponse cfg s toolName args
      = .success ⟨[⟨"text", "Error: " ++ notEnabledMessage s.availableToolsList toolName⟩],
          some true⟩ :=
  envelopeResponse_of_not_enabled cfg s toolName args h

/-- Witness for C2 (amended) at a concrete unknown name. -/
theorem c2_unknown_operation_success_isError_witness :
    callToolEnvelopeResponse ⟨none, none⟩ ⟨[], []⟩ "nada" (Js.obj [])
      = .success ⟨[⟨"text", "Error: " ++ notEnabledMessage [] "nada"⟩], some true⟩ :=
  c2_unknown_operation_success_isError ⟨none, none⟩ ⟨[], []⟩ "nada" (Js.obj []) rfl

/-- C3 (counterexample): the claim states two registries differing only in
whether the name is registered-but-disabled versus absent yield identical
client-visible responses.  They do not: with `sierra_execute_query`
registered but excluded from the enabled list the client receives the
`available but not enabled by current configuration` text, with it absent
the client receives the `not enabled or does not exist` text, and both
texts travel in the Output returned to the remote client. -/
theorem c3_disabled_vs_unknown_distinguishable :
    callToolEnvelopeResponse ⟨none, none⟩ ⟨[fixtureQueryTool], []⟩
        "sierra_execute_query" (Js.obj [])
      ≠ callToolEnvelopeResponse ⟨none, none⟩ ⟨[], []⟩
        "sierra_execute_query" (Js.obj []) := by
  decide

/-- C3 (amended): the two not-found cases produce different client-visible
messages — a registered-but-disabled name is answered with
`Tool "<name>" is available but not enabled by current configuration.` and
a truly unknown name with `Tool '<name>' is not enabled or does not
exist.` — both delivered to the remote client inside the `isError` Output
(the configuration distinction is not confined to operator logs). -/
theorem c3_notfound_message_depends_on_registration (cfg : ProcessConfig)
    (s : ServerState) (toolName : String) (args : Js)
    (hdis : recordLookup s.enabledTools toolName = none) :
    (s.availableToolsList.any (fun t => t.name == toolName) = true →
      callToolEnvelopeResponse cfg s toolName args
        = .success ⟨[⟨"text",
              "Error: Tool \"" ++ toolName ++ "\" is available but not enabled by current configuration."⟩],
            some true⟩)
    ∧ (s.availableToolsList.any (fun t => t.name == toolName) = false →
      callToolEnvelopeResponse cfg s toolName args
        = .success ⟨[⟨"text",
              "Error: Tool " ++ sq ++ toolName ++ sq ++ " is not enabled or does not exist."⟩],
            some true⟩) := by
  constructor
  · intro hreg
    rw [envelopeResponse_of_not_enabled cfg s toolName args hdis]
    simp [notEnabledMessage, hreg, ← String.append_assoc]
  · intro hreg
    rw [envelopeResponse_of_not_enabled cfg s toolName args hdis]
    simp [notEnabledMessage, hreg, ← String.append_assoc]

/-- Witness for C3 (amended): both branches at concrete states. -/
theorem c3_notfound_message_witness :
    callToolEnvelopeResponse ⟨none, none⟩ ⟨[fixtureQueryTool], []⟩
        "sierra_execute_query" (Js.obj [])
      = .success ⟨[⟨"text",
            "Error: Tool \"sierra_execute_query\" is available but not enabled by current configuration."⟩],
          some true⟩ :=
  (c3_notfound_message_depends_on_registration ⟨none, none⟩ ⟨[fixtureQueryTool], []⟩
    "sierra_execute_query" (Js.obj []) rfl).1 rfl

/-- C4: every value a handler raises (including downstream database errors)
is caught at the dispatcher boundary and converted into an Output with
`isError = true` whose text part carries the failure's message (prefixed
`Error: `); moreover the registered dispatch function is total — on every
input it returns an output rather than propagating a fault. -/
theorem c4_handler_failures_converted (cfg : ProcessConfig) (s : ServerState)
    (toolName : String) (args : Js) (tool : SierraTool) (e : JsError)
    (hfound : recordLookup s.enabledTools toolName = some tool)
    (hthrow : tool.execute args (getConnectionString cfg) = .error e) :
    registeredCallToolHandler cfg s toolName args
      = .ok ⟨[⟨"text", "Error: " ++ e.displayMessage⟩], some true⟩
    ∧ ∀ (cfg2 : ProcessConfig) (s2 : ServerState) (n2 : String) (a2 : Js),
        ∃ o, registeredCallToolHandler cfg2 s2 n2 a2 = .ok o := by
  refine ⟨?_, fun cfg2 s2 n2 a2 => registeredCallToolHandler_total cfg2 s2 n2 a2⟩
  simp [registeredCallToolHandler, callToolTry, hfound, hthrow, catchToOutput]

/-- Witness for C4: a handler raising a database error at a concrete call. -/
theorem c4_handler_failures_converted_witness :
    registeredCallToolHandler ⟨none, none⟩ ⟨[failingFixtureTool], [failingFixtureTool]⟩
        "failing_tool" (Js.obj [])
      = .ok ⟨[⟨"text", "Error: relation does not exist"⟩], some true⟩ := by
  simpa using (c4_handler_failures_converted ⟨none, none⟩
    ⟨[failingFixtureTool], [failingFixtureTool]⟩ "failing_tool" (Js.obj [])
    failingFixtureTool (.error "relation does not exist") rfl rfl).1

/-- Looking a session id up after its entry was deleted yields nothing:
the record no longer contains any entry for the id. -/
lemma transportLookup_removeTransport (l : List HttpTransport) (sid : String) :
    transportLookup (removeTransport l sid) sid = none := by
  have h : ∀ (m : List HttpTransport), (∀ t ∈ m, (t.sessionId == sid) = false) →
      m.foldl (fun acc t => if t.sessionId == sid then some t else acc) none = none := by
    intro m
    induction m with
    | nil => intro _; rfl
    | cons a m ih =>
        intro hm
        have ha := hm a (List.mem_cons_self a m)
        simp only [List.foldl_cons, ha, Bool.false_eq_true, if_false]
        exact ih (fun t ht => hm t (List.mem_cons_of_mem a ht))
  apply h
  intro t ht
  have hmem := List.mem_filter.mp ht
  simpa using hmem.2

/-- C5: in the HTTP transport, a new session is created if and only if the
exchange carries no session token (absent or empty `mcp-session-id` header;
the header is JS-falsy) and the payload is an initialize request; an
exchange carrying a token of a live session is handed to that session's
transport; and every remaining exchange (token of no live session, or no
token with a non-handshake payload) is answered with the 400
`Bad Request: No valid session ID provided` protocol error and the session
record is untouched, so it never reaches operation dispatch. -/
theorem c5_session_creation_characterization (freshId : String)
    (transports : List HttpTransport) (hdr : Option String) (body : HttpBody) :
    (mcpPost freshId transports hdr body
        = (.handshakeAck freshId, transports ++ [⟨freshId, true⟩])
      ↔ optTruthy hdr = false ∧ body.isInitReq = true)
    ∧ (∀ t, optTruthy hdr = true →
        transportLookup transports (hdr.getD "") = some t →
        mcpPost freshId transports hdr body = (transportHandlePost t body, transports))
    ∧ (optTruthy hdr = true → transportLookup transports (hdr.getD "") = none →
        mcpPost freshId transports hdr body
          = (.badRequestRpc (-32000) "Bad Request: No valid session ID provided", transports))
    ∧ (optTruthy hdr = false → body.isInitReq = false →
        mcpPost freshId transports hdr body
          = (.badRequestRpc (-32000) "Bad Request: No valid session ID provided", transports)) := by
  refine ⟨⟨?_, ?_⟩, ?_, ?_, ?_⟩
  · intro h
    by_cases ht : optTruthy hdr
    · rcases hl : transportLookup transports (hdr.getD "") with _ | t
      · simp [mcpPost, ht, hl] at h
      · simp [mcpPost, ht, hl] at h
    · rcases hb : body.isInitReq with _ | _
      · simp [mcpPost, ht, hb] at h
      · exact ⟨by simpa using ht, rfl⟩
  · rintro ⟨h1, h2⟩
    simp [mcpPost, h1, h2]
  · intro t ht hl
    simp [mcpPost, ht, hl]
  · intro ht hl
    simp [mcpPost, ht, hl]
  · intro ht hb
    simp [mcpPost, ht, hb]

/-- Witness for C5: a non-handshake exchange carrying a live token is
handed to that session's transport. -/
theorem c5_session_creation_witness :
    mcpPost "fresh-id" [⟨"s1", true⟩] (some "s1") ⟨false⟩
      = (transportHandlePost ⟨"s1", true⟩ ⟨false⟩, [⟨"s1", true⟩]) :=
  (c5_session_creation_characterization "fresh-id" [⟨"s1", true⟩]
    (some "s1") ⟨false⟩).2.1 ⟨"s1", true⟩ rfl rfl

/-- C6: a second Handshake arriving with the session id of a session whose
handshake already completed (`Active`) is rejected as a protocol error and
does not create a second session: the routing layer reuses the existing
transport without constructing a new one (the session record is returned
unchanged), and the transport — whose rejection of a repeated handshake is
modelled from the spec, being SDK code outside this repository — answers
with a protocol error rather than a fresh handshake acknowledgement. -/
theorem c6_second_handshake_rejected (freshId : String)
    (transports : List HttpTransport) (sid : String) (t : HttpTransport)
    (hsid : (sid == "") = false) (hlive : transportLookup transports sid = some t)
    (hactive : t.active = true) :
    mcpPost freshId transports (some sid) ⟨true⟩
      = (.sessionProtocolError "Handshake rejected: session already active", transports) := by
  simp [mcpPost, optTruthy, hsid, hlive, transportHandlePost, hactive]

/-- Witness for C6 at a concrete active session. -/
theorem c6_second_handshake_rejected_witness :
    mcpPost "fresh-id" [⟨"s1", true⟩] (some "s1") ⟨true⟩
      = (.sessionProtocolError "Handshake rejected: session already active", [⟨"s1", true⟩]) :=
  c6_second_handshake_rejected "fresh-id" [⟨"s1", true⟩] "s1" ⟨"s1", true⟩ rfl rfl rfl

/-- C7: session termination is idempotent.  The first DELETE on a live id
removes exactly that session from the record (via the transport close and
its `onclose` handler); afterwards the id resolves to no session; a second
DELETE on the now-closed id does not raise — it is answered with the 400
`Invalid or missing session ID` text — does not resurrect the session, and
returns the record in exactly the state the first termination left it. -/
theorem c7_end_session_idempotent (transports : List HttpTransport) (sid : String)
    (hsid : (sid == "") = false)
    (hlive : (transportLookup transports sid).isSome = true) :
    (mcpDelete transports (some sid)).2 = removeTransport transports sid
    ∧ transportLookup (removeTransport transports sid) sid = none
    ∧ mcpDelete (removeTransport transports sid) (some sid)
      = (.badRequestText "Invalid or missing session ID", removeTransport transports sid) := by
  refine ⟨?_, transportLookup_removeTransport transports sid, ?_⟩
  · rcases ht : transportLookup transports sid with _ | t
    · rw [ht] at hlive; simp at hlive
    · simp [mcpDelete, optTruthy, hsid, ht]
  · simp [mcpDelete, optTruthy, hsid, transportLookup_removeTransport transports sid]

/-- Witness for C7 at a concrete one-session record. -/
theorem c7_end_session_idempotent_witness :
    mcpDelete (removeTransport [⟨"s1", true⟩] "s1") (some "s1")
      = (.badRequestText "Invalid or missing session ID",
          removeTransport [⟨"s1", true⟩] "s1") :=
  (c7_end_session_idempotent [⟨"s1", true⟩] "s1" rfl rfl).2.2

/-- C8: the connection descriptor a handler obtains from the resolver
follows the precedence: a truthy per-call `connectionString` argument wins;
otherwise the `--connection-string` CLI option; otherwise the
`POSTGRES_CONNECTION_STRING` environment variable; and when none exists the
resolver throws the descriptive `InvalidParams` error — which, for the
`sierra_analyze_database` shim (whose `execute` resolves before its try
block), the dispatcher catches and answers as an error Output, so the call
is answered and the process does not crash. -/
theorem c8_connection_resolution_precedence (cfg : ProcessConfig)
    (a cliS envS : String) (ha : (a == "") = false) (hc : (cliS == "") = false)
    (he : (envS == "") = false) (body : String → Except JsError ToolOutput) :
    getConnectionString cfg (some a) = .ok a
    ∧ getConnectionString ⟨some cliS, some envS⟩ none = .ok cliS
    ∧ getConnectionString ⟨none, some envS⟩ none = .ok envS
    ∧ getConnectionString ⟨none, none⟩ none = .error ⟨.invalidParams, noConnectionStringMessage⟩
    ∧ registeredCallToolHandler ⟨none, none⟩
        ⟨[analyzeDatabaseTool body], [analyzeDatabaseTool body]⟩
        "sierra_analyze_database" (Js.obj [])
      = .ok ⟨[⟨"text", "Error: " ++ noConnectionStringMessage⟩], some true⟩ := by
  refine ⟨?_, ?_, ?_, rfl, rfl⟩
  · simp [getConnectionString, optTruthy, ha]
  · simp [getConnectionString, optTruthy, hc]
  · simp [getConnectionString, optTruthy, he]

/-- Witness for C8 at concrete strings: the CLI option beats the
environment variable when no per-call argument is given. -/
theorem c8_connection_resolution_witness :
    getConnectionString ⟨some "postgresql://cli/db", some "postgresql://env/db"⟩ none
      = .ok "postgresql://cli/db" :=
  (c8_connection_resolution_precedence ⟨none, none⟩ "x" "postgresql://cli/db"
    "postgresql://env/db" rfl rfl rfl (fun _ => .ok ⟨[], none⟩)).2.1

/-- C9 (counterexample): handler invocations are not independent.  After an
invocation connects the shared `DatabaseConnection` singleton to `hostA`,
(1) a later invocation asking for the same string is served purely from the
retained state — it succeeds even when the external pool connect would fail
— so mutable state is retained across invocations; and (2) an invocation
connecting to `hostB` overwrites the shared state, so the first call's
subsequent queries run against `hostB`, not the `hostA` connection it
resolved: a call on one session corrupts the connection of a concurrent
call on another session. -/
theorem c9_shared_singleton_counterexample :
    (dbConnect dbInitialState (some "postgresql://hostA/db") none true).1
      = ⟨true, true, "postgresql://hostA/db"⟩
    ∧ dbConnect ⟨true, true, "postgresql://hostA/db"⟩ (some "postgresql://hostA/db") none false
      = (⟨true, true, "postgresql://hostA/db"⟩, none)
    ∧ (dbConnect ⟨true, true, "postgresql://hostA/db"⟩ (some "postgresql://hostB/db") none true).1
      = ⟨true, true, "postgresql://hostB/db"⟩
    ∧ dbQuery ⟨true, true, "postgresql://hostB/db"⟩ = .ok "postgresql://hostB/db"
    ∧ ("postgresql://hostB/db" == "postgresql://hostA/db") = false :=
  ⟨rfl, rfl, rfl, rfl, rfl⟩

/-- C9 (amended): every handler shares the process-wide
`DatabaseConnection` singleton, which retains its pool, client and
connection string across invocations: a repeated `connect` with the
retained string is a no-op answered from the shared state, and a `connect`
with a different string replaces the connection that other in-flight
invocations' queries run against. -/
theorem c9_singleton_cross_call_interference (st : DbConnState) (s1 s2 : String)
    (h1 : (s1 == "") = false) (h2 : (s2 == "") = false)
    (hpool : st.hasPool = true) (hcs : st.connectionString = s1) :
    dbConnect st (some s1) none false = (st, none)
    ∧ ((s2 == s1) = false →
        (dbConnect st (some s2) none true).1 = ⟨true, true, s2⟩
        ∧ dbQuery ⟨true, true, s2⟩ = .ok s2) := by
  constructor
  · simp [dbConnect, optTruthy, h1, hpool, hcs]
  · intro hne
    constructor
    · simp [dbConnect, optTruthy, h2, hpool, hcs, hne]
    · rfl

/-- Witness for C9 (amended) at a concrete retained state. -/
theorem c9_singleton_cross_call_interference_witness :
    dbConnect ⟨true, true, "postgresql://a"⟩ (some "postgresql://a") none false
      = (⟨true, true, "postgresql://a"⟩, none) :=
  (c9_singleton_cross_call_interference ⟨true, true, "postgresql://a"⟩
    "postgresql://a" "postgresql://b" rfl rfl rfl rfl).1

/-- C10: the tools allow-list fails open — when no config path is given,
when the file cannot be read or is not valid JSON, or when the parsed value
is not a truthy object with an `enabledTools` string array, every
registered tool stays enabled; and when the config is valid the enabled
list is exactly the registered list restricted to the configured names: a
sublist of the registered list (registration order) containing precisely
the registered tools whose name occurs in the `enabledTools` array. -/
theorem c10_allowlist_fails_open (available : List SierraTool) :
    loadAndFilterTools available .noPath = available
    ∧ (∀ m, loadAndFilterTools available (.readOrParseError m) = available)
    ∧ (∀ config, (jsTruthy config && isStringArray (jsGet config "enabledTools")) = false →
        loadAndFilterTools available (.parsed config) = available)
    ∧ (∀ config, (jsTruthy config && isStringArray (jsGet config "enabledTools")) = true →
        (loadAndFilterTools available (.parsed config)).Sublist available
        ∧ ∀ t, t ∈ loadAndFilterTools available (.parsed config)
            ↔ t ∈ available
              ∧ (stringArrayValues (jsGet config "enabledTools")).contains t.name = true) := by
  refine ⟨rfl, fun m => rfl, fun config hc => ?_, fun config hc => ⟨?_, fun t => ?_⟩⟩
  · simp [loadAndFilterTools, hc]
  · simp only [loadAndFilterTools, hc, if_true]
    exact List.filter_sublist _
  · simp [loadAndFilterTools, hc, List.mem_filter]

/-- Witness for C10: a config whose `enabledTools` is not an array leaves
every registered tool enabled. -/
theorem c10_allowlist_fails_open_witness :
    loadAndFilterTools [probeTool] (.parsed (Js.obj [("enabledTools", Js.str "oops")]))
      = [probeTool] :=
  (c10_allowlist_fails_open [probeTool]).2.2.1
    (Js.obj [("enabledTools", Js.str "oops")]) (by decide)

end SierraDB
